import Mathlib

/-!
Verification of the socket-management layer of the Homa transport
(`homa_sock.c`): bind, connect, shutdown, sendmsg/recvmsg plumbing,
default-port allocation and the ICMP error handlers.  Each C function is
shallowly embedded as a Lean function over explicit state; external
collaborators (RPC table, buffer pool, wait queues) appear as oracle
parameters describing their results.
-/

namespace HomaSock

/- ## Errno constants (Linux asm-generic values, used as `-E...` results) -/

def EINTR : Int := 4
def EWOULDBLOCK : Int := 11
def ENOMEM : Int := 12
def EFAULT : Int := 14
def EINVAL : Int := 22
def EPROTONOSUPPORT : Int := 93
def EAFNOSUPPORT : Int := 97
def EADDRINUSE : Int := 98
def EADDRNOTAVAIL : Int := 99
def EISCONN : Int := 106
def ENOTCONN : Int := 107
def ESHUTDOWN : Int := 108
def EHOSTUNREACH : Int := 113
def ETIMEDOUT : Int := 110

/- ## Constants from the Homa uAPI header (not part of src/, values fixed
by the published uAPI; `HOMA_MIN_DEFAULT_PORT` and `HOMA_MAX_BPAGES` are
named in src/man/homa.7 and src/man/recvmsg.2). -/

/-- Modelled from the spec: smallest auto-assigned (default) port; bind
only accepts ports below this value (uAPI value 0x8000). -/
def HOMA_MIN_DEFAULT_PORT : Nat := 32768

/-- Modelled from the spec: maximum number of bpages describing one
received message (size of the `bpage_offsets` array in
`homa_recvmsg_args`). -/
def HOMA_MAX_BPAGES : Nat := 16

/-- Modelled from the spec: the only defined sendmsg flag is
`HOMA_SENDMSG_PRIVATE` (bit 0), so this is the mask of valid flag bits. -/
def HOMA_SENDMSG_VALID_FLAGS : Nat := 1

def HOMA_SENDMSG_PRIVATE : Nat := 1

/-- Address families (Linux values). -/
def AF_INET : Nat := 2
def AF_INET6 : Nat := 10

/-- sizeof(struct sockaddr_in). -/
def SIZEOF_SOCKADDR_IN : Nat := 16
/-- sizeof(struct sockaddr_in6). -/
def SIZEOF_SOCKADDR_IN6 : Nat := 28

/- ## homa_sock_bind (homa_sock.c)

The socket table is abstracted by `find : Nat → Option Nat`, the result of
`homa_sock_find(hnet, port)`: the id of the socket owning `port` in this
namespace, if any.  The parts of `struct homa_sock` that `homa_sock_bind`
touches are `port` and `is_server`, plus the `shutdown` flag it tests. -/

structure BindSock where
  /-- Identity of the socket (used to compare `owner != hsk`). -/
  id : Nat
  port : Nat
  is_server : Bool
  shutdown : Bool
  deriving Repr, DecidableEq

/-- Shallow embedding of `homa_sock_bind`.  Returns the C result together
with the socket state after the call. -/
def homa_sock_bind (find : Nat → Option Nat) (hsk : BindSock) (port : Nat) :
    Int × BindSock :=
  if port = 0 then (0, hsk)
  else if port ≥ HOMA_MIN_DEFAULT_PORT then (-EINVAL, hsk)
  else if hsk.shutdown then (-ESHUTDOWN, hsk)
  else
    match find port with
    | some owner => if owner ≠ hsk.id then (-EADDRINUSE, hsk) else (0, hsk)
    | none => (0, { hsk with port := port, is_server := true })

/- ## homa_sock_shutdown / homa_shutdown (homa_sock.c)

State covers exactly what `homa_sock_shutdown` mutates: the `shutdown`
flag, membership in the socktab (`linked`), the states of the socket's
active RPCs, and the queue of waiting interests (each woken with
`ready = 1` and removed from the list). -/

inductive RpcState where
  | outgoing | incoming | inService | dead
  deriving Repr, DecidableEq

structure ShutSock where
  shutdown : Bool
  /-- Whether `hsk->homa` is non-NULL (false only for a socket whose
  initialization failed, which also has `shutdown = true`). -/
  homa_valid : Bool
  /-- Whether the socket is linked into its socktab bucket. -/
  linked : Bool
  /-- States of the RPCs on `active_rpcs`; `homa_rpc_end` moves each to
  dead. -/
  active_rpcs : List RpcState
  /-- Pending interests, each recorded by whether its `ready` flag is
  set; shutdown empties the list after setting every flag and waking. -/
  interests : List Bool
  deriving Repr, DecidableEq

/-- Shallow embedding of `homa_sock_shutdown`: early return if already
shut down or `homa` is NULL, otherwise set `shutdown`, unlink from the
socktab, end every active RPC and wake every queued interest. -/
def homa_sock_shutdown (s : ShutSock) : ShutSock :=
  if s.shutdown ∨ ¬s.homa_valid then s
  else
    { shutdown := true
      homa_valid := s.homa_valid
      linked := false
      active_rpcs := s.active_rpcs.map fun _ => RpcState.dead
      interests := [] }

/-- Shallow embedding of `homa_shutdown` (the shutdown(2) entry point):
ignores `how`, runs `homa_sock_shutdown` and returns 0. -/
def homa_shutdown (s : ShutSock) (_how : Int) : Int × ShutSock :=
  (0, homa_sock_shutdown s)

/- ## __homa_connect / homa_connect (homa_sock.c)

The address is abstracted as its family plus an opaque payload; the
`memcpy` into `hsk->target_addr` stores both. -/

structure ConnAddr where
  family : Nat
  /-- Opaque stand-in for the address bytes that `memcpy` copies. -/
  payload : Nat
  deriving Repr, DecidableEq

structure ConnSock where
  connected : Bool
  shutdown : Bool
  /-- Field `hsk->target_addr`; `none` models the zeroed initial value. -/
  target_addr : Option ConnAddr
  deriving Repr, DecidableEq

/-- Shallow embedding of `__homa_connect`. -/
def __homa_connect (hsk : ConnSock) (addr : ConnAddr) (addrlen : Nat) :
    Int × ConnSock :=
  if hsk.connected then (-EISCONN, hsk)
  else if hsk.shutdown then (-ESHUTDOWN, hsk)
  else if addr.family ≠ AF_INET ∧ addr.family ≠ AF_INET6 then
    (-EAFNOSUPPORT, hsk)
  else if addr.family = AF_INET then
    if addrlen < SIZEOF_SOCKADDR_IN then (-EINVAL, hsk)
    else (0, { hsk with target_addr := some addr, connected := true })
  else if addr.family = AF_INET6 then
    if addrlen < SIZEOF_SOCKADDR_IN6 then (-EINVAL, hsk)
    else (0, { hsk with target_addr := some addr, connected := true })
  else (-EINVAL, hsk)

/-- Shallow embedding of `homa_connect`: takes the socket lock around
`__homa_connect` (locking is invisible in the sequential model). -/
def homa_connect (hsk : ConnSock) (addr : ConnAddr) (addrlen : Nat) :
    Int × ConnSock :=
  __homa_connect hsk addr addrlen

/- ## homa_sock_wait_wmem (homa_sock.c) -/

/-- Modelled from the kernel's `wait_event_interruptible_timeout` macro
(an external collaborator): with timeout 0 it cannot sleep and returns 1
if the condition already holds, 0 otherwise; with a nonzero timeout the
outcome of the sleep is supplied by the oracle `blocked_result`. -/
def wait_event_interruptible_timeout (cond : Bool) (timeo : Int)
    (blocked_result : Int) : Int :=
  if timeo = 0 then (if cond then 1 else 0) else blocked_result

/-- Environment of one `homa_sock_wait_wmem` call. -/
structure WmemWait where
  /-- Value of `hsk->sock.sk_sndtimeo` (nonzero for a normal socket). -/
  sndtimeo : Int
  /-- Value of `homa_sock_wmem_avl(hsk) || hsk->shutdown` at the
  condition check inside the wait. -/
  cond : Bool
  /-- Oracle: result of the wait when it is allowed to sleep. -/
  blocked_result : Int
  /-- Value of `signal_pending(current)` after the wait returns. -/
  signal_pending : Bool
  deriving Repr, DecidableEq

/-- Shallow embedding of `homa_sock_wait_wmem`. -/
def homa_sock_wait_wmem (w : WmemWait) (nonblocking : Bool) : Int :=
  let timeo := if nonblocking then 0 else w.sndtimeo
  let result := wait_event_interruptible_timeout w.cond timeo
      w.blocked_result
  if w.signal_pending then -EINTR
  else if result = 0 then -EWOULDBLOCK
  else 0

/- ## The four homa_sendmsg variants (homa_sock.c)

`struct homa_sendmsg_args` as in the uAPI (id, completion_cookie, flags,
reserved).  External collaborators appear as oracle fields of
`SendMsgCtx`: the result of `homa_rpc_alloc_client`, of
`homa_message_out_fill`, of the user-memory copies, and the server-side
RPC found by `homa_rpc_find_server` (with the state/error fields the
response path inspects). -/

structure SendmsgArgs where
  id : Nat
  completion_cookie : Nat
  flags : Nat
  reserved : Nat
  deriving Repr, DecidableEq

/-- Server-side RPC as seen by the sendmsg response path. -/
structure SRpc where
  state : RpcState
  error : Int
  deriving Repr, DecidableEq

/-- Modelled from the spec: `end(rpc)` moves an RPC to `DEAD` (the RPC
module itself is outside src/); only the state change is relevant here. -/
def homa_rpc_end (r : SRpc) : SRpc :=
  { r with state := RpcState.dead }

/-- The `args.flags & ~HOMA_SENDMSG_VALID_FLAGS || args.reserved != 0`
test shared by all four variants (`flags` is a u32, so the complement of
the valid mask is taken within 32 bits). -/
def sendmsg_args_invalid (args : SendmsgArgs) : Bool :=
  args.flags &&& (4294967295 - HOMA_SENDMSG_VALID_FLAGS) ≠ 0 ||
  args.reserved ≠ 0

/-- Inputs and oracles of one sendmsg call. -/
structure SendMsgCtx where
  /-- Whether `msg->msg_name == NULL`. -/
  msg_name_null : Bool
  msg_namelen : Nat
  /-- Family of the destination address used by this variant
  (`msg_name` for unconnected, `hsk->target_addr` for connected). -/
  addr_family : Nat
  /-- Value of `sk->sk_family`. -/
  sk_family : Nat
  /-- Value of `msg->msg_control_is_user`. -/
  msg_control_is_user : Bool
  /-- Contents of the caller's `homa_sendmsg_args` block. -/
  args : SendmsgArgs
  /-- Value of `msg->msg_flags & MSG_DONTWAIT`. -/
  msg_dontwait : Bool
  /-- Oracle: `copy_from_user` of args succeeds. -/
  copy_in_ok : Bool
  /-- Value of `homa_sock_wmem_avl(hsk)` on entry. -/
  wmem_avl : Bool
  wmem : WmemWait
  /-- Oracle: errno if `homa_rpc_alloc_client` fails. -/
  alloc_fail : Option Int
  /-- Oracle: result of `homa_message_out_fill`. -/
  fill_result : Int
  /-- Oracle: `copy_to_user` of updated args succeeds. -/
  copy_out_ok : Bool
  /-- Oracle: the RPC (if any) that `homa_rpc_find_server` returns for
  `args.id`. -/
  find_server : Option SRpc
  deriving Repr, DecidableEq

/-- Result of a sendmsg call: the C return value, the final state of the
server-side RPC named by `args.id` (unchanged copy of the oracle when
the call never touches it), whether `homa_rpc_alloc_client` ran, and
whether `homa_message_out_fill` ran. -/
structure SendOutcome where
  result : Int
  server_rpc : Option SRpc
  created : Bool
  filled : Bool
  deriving Repr, DecidableEq

/-- The request branch (`args.id == 0`) shared verbatim by all four
variants: allocate a client RPC, fill the outgoing message, copy the new
id back; on any failure the new RPC is ended.  Returns (result, created,
filled). -/
def homa_sendmsg_request (alloc_fail : Option Int) (fill_result : Int)
    (copy_out_ok : Bool) : Int × Bool × Bool :=
  match alloc_fail with
  | some e => (e, false, false)
  | none =>
    if fill_result ≠ 0 then (fill_result, true, true)
    else if ¬copy_out_ok then (-EFAULT, true, true)
    else (0, true, true)

/-- The response branch (`args.id != 0`) shared verbatim by all four
variants: reject a nonzero completion cookie; a missing server RPC is a
silent success; an RPC with a recorded error returns that error and is
ended; an RPC not in `IN_SERVICE` yields `EINVAL` untouched; otherwise
the RPC moves to `OUTGOING` and the message is filled (a fill failure
ends the RPC).  Returns (result, final server RPC, filled). -/
def homa_sendmsg_response (args : SendmsgArgs) (find_server : Option SRpc)
    (fill_result : Int) : Int × Option SRpc × Bool :=
  if args.completion_cookie ≠ 0 then (-EINVAL, find_server, false)
  else
    match find_server with
    | none => (0, none, false)
    | some rpc =>
      if rpc.error ≠ 0 then (rpc.error, some (homa_rpc_end rpc), false)
      else if rpc.state ≠ RpcState.inService then (-EINVAL, some rpc, false)
      else
        let rpc' : SRpc := { rpc with state := RpcState.outgoing }
        if fill_result ≠ 0 then (fill_result, some (homa_rpc_end rpc'), true)
        else (0, some rpc', true)

/-- Shallow embedding of `homa_sendmsg_user_unconnected`. -/
def homa_sendmsg_user_unconnected (c : SendMsgCtx) : SendOutcome :=
  if c.msg_name_null then ⟨-EINVAL, c.find_server, false, false⟩
  else if ¬c.msg_control_is_user then ⟨-EINVAL, c.find_server, false, false⟩
  else if ¬c.copy_in_ok then ⟨-EFAULT, c.find_server, false, false⟩
  else if sendmsg_args_invalid c.args then ⟨-EINVAL, c.find_server, false, false⟩
  else if ¬c.wmem_avl ∧ homa_sock_wait_wmem c.wmem c.msg_dontwait ≠ 0 then
    ⟨homa_sock_wait_wmem c.wmem c.msg_dontwait, c.find_server, false, false⟩
  else if c.addr_family ≠ c.sk_family then
    ⟨-EAFNOSUPPORT, c.find_server, false, false⟩
  else if c.msg_namelen < SIZEOF_SOCKADDR_IN ∨
      (c.msg_namelen < SIZEOF_SOCKADDR_IN6 ∧ c.addr_family = AF_INET6) then
    ⟨-EINVAL, c.find_server, false, false⟩
  else if c.args.id = 0 then
    let (r, created, filled) :=
      homa_sendmsg_request c.alloc_fail c.fill_result c.copy_out_ok
    ⟨r, c.find_server, created, filled⟩
  else
    let (r, final, filled) :=
      homa_sendmsg_response c.args c.find_server c.fill_result
    ⟨r, final, false, filled⟩

/-- Shallow embedding of `homa_sendmsg_user_connected` (destination is
`hsk->target_addr`; `msg_name` must be NULL and `msg_namelen` zero). -/
def homa_sendmsg_user_connected (c : SendMsgCtx) : SendOutcome :=
  if ¬c.msg_name_null then ⟨-EINVAL, c.find_server, false, false⟩
  else if ¬c.msg_control_is_user then ⟨-EINVAL, c.find_server, false, false⟩
  else if ¬c.copy_in_ok then ⟨-EFAULT, c.find_server, false, false⟩
  else if sendmsg_args_invalid c.args then ⟨-EINVAL, c.find_server, false, false⟩
  else if ¬c.wmem_avl ∧ homa_sock_wait_wmem c.wmem c.msg_dontwait ≠ 0 then
    ⟨homa_sock_wait_wmem c.wmem c.msg_dontwait, c.find_server, false, false⟩
  else if c.addr_family ≠ c.sk_family then
    ⟨-EAFNOSUPPORT, c.find_server, false, false⟩
  else if c.msg_namelen ≠ 0 then ⟨-EINVAL, c.find_server, false, false⟩
  else if c.args.id = 0 then
    let (r, created, filled) :=
      homa_sendmsg_request c.alloc_fail c.fill_result c.copy_out_ok
    ⟨r, c.find_server, created, filled⟩
  else
    let (r, final, filled) :=
      homa_sendmsg_response c.args c.find_server c.fill_result
    ⟨r, final, false, filled⟩

/-- Shallow embedding of `homa_sendmsg_in_kernel_connected`.  In the
source the `args.flags`/`args.reserved` validation executes BEFORE the
`memcpy` that fills `args` from `msg->msg_control`, so the validated
values are whatever the uninitialized stack variable holds; the extra
parameter `uninit` is that uninitialized content.  The in-kernel copies
are plain `memcpy` and cannot fail. -/
def homa_sendmsg_in_kernel_connected (uninit : SendmsgArgs)
    (c : SendMsgCtx) : SendOutcome :=
  if ¬c.msg_name_null then ⟨-EINVAL, c.find_server, false, false⟩
  else if sendmsg_args_invalid uninit then ⟨-EINVAL, c.find_server, false, false⟩
  else if ¬c.wmem_avl ∧ homa_sock_wait_wmem c.wmem c.msg_dontwait ≠ 0 then
    ⟨homa_sock_wait_wmem c.wmem c.msg_dontwait, c.find_server, false, false⟩
  else if c.addr_family ≠ c.sk_family then
    ⟨-EAFNOSUPPORT, c.find_server, false, false⟩
  else if c.msg_namelen ≠ 0 then ⟨-EINVAL, c.find_server, false, false⟩
  else if c.args.id = 0 then
    let (r, created, filled) :=
      homa_sendmsg_request c.alloc_fail c.fill_result true
    ⟨r, c.find_server, created, filled⟩
  else
    let (r, final, filled) :=
      homa_sendmsg_response c.args c.find_server c.fill_result
    ⟨r, final, false, filled⟩

/-- Shallow embedding of `homa_sendmsg_in_kernel_unconnected` (the
`memcpy` of args happens before validation here, matching the user-mode
order). -/
def homa_sendmsg_in_kernel_unconnected (c : SendMsgCtx) : SendOutcome :=
  if c.msg_name_null then ⟨-EINVAL, c.find_server, false, false⟩
  else if sendmsg_args_invalid c.args then ⟨-EINVAL, c.find_server, false, false⟩
  else if ¬c.wmem_avl ∧ homa_sock_wait_wmem c.wmem c.msg_dontwait ≠ 0 then
    ⟨homa_sock_wait_wmem c.wmem c.msg_dontwait, c.find_server, false, false⟩
  else if c.addr_family ≠ c.sk_family then
    ⟨-EAFNOSUPPORT, c.find_server, false, false⟩
  else if c.msg_namelen < SIZEOF_SOCKADDR_IN ∨
      (c.msg_namelen < SIZEOF_SOCKADDR_IN6 ∧ c.addr_family = AF_INET6) then
    ⟨-EINVAL, c.find_server, false, false⟩
  else if c.args.id = 0 then
    let (r, created, filled) :=
      homa_sendmsg_request c.alloc_fail c.fill_result true
    ⟨r, c.find_server, created, filled⟩
  else
    let (r, final, filled) :=
      homa_sendmsg_response c.args c.find_server c.fill_result
    ⟨r, final, false, filled⟩

/- ## ICMP error handlers (homa_sock.c)

ICMP constants from the Linux uAPI.  A handler's observable effect is
whether it calls `homa_abort_rpcs(homa, daddr, port, error)`, and with
which port and error; `none` means no abort. -/

def ICMP_DEST_UNREACH : Nat := 3
def ICMP_PROT_UNREACH : Nat := 2
def ICMP_PORT_UNREACH : Nat := 3
def ICMPV6_DEST_UNREACH : Nat := 1
def ICMPV6_ADDR_UNREACH : Nat := 3
def ICMPV6_PORT_UNREACH : Nat := 4
def ICMPV6_PARAMPROB : Nat := 4
def ICMPV6_UNK_NEXTHDR : Nat := 1

/-- Shallow embedding of `homa_err_handler_v4`: returns the
(port, error) pair passed to `homa_abort_rpcs`, or `none` when
`error == 0` so nothing is aborted.  `hdr_dport` is the dest port taken
from the embedded Homa header. -/
def homa_err_handler_v4 (icmp_type code hdr_dport : Nat) :
    Option (Nat × Int) :=
  if icmp_type = ICMP_DEST_UNREACH ∧ code = ICMP_PORT_UNREACH then
    some (hdr_dport, -ENOTCONN)
  else if icmp_type = ICMP_DEST_UNREACH then
    if code = ICMP_PROT_UNREACH then some (0, -EPROTONOSUPPORT)
    else some (0, -EHOSTUNREACH)
  else none

/-- Shallow embedding of `homa_err_handler_v6`. -/
def homa_err_handler_v6 (icmp_type code hdr_dport : Nat) :
    Option (Nat × Int) :=
  if icmp_type = ICMPV6_DEST_UNREACH ∧ code = ICMPV6_PORT_UNREACH then
    some (hdr_dport, -ENOTCONN)
  else if icmp_type = ICMPV6_DEST_UNREACH ∧ code = ICMPV6_ADDR_UNREACH then
    some (0, -EHOSTUNREACH)
  else if icmp_type = ICMPV6_PARAMPROB ∧ code = ICMPV6_UNK_NEXTHDR then
    some (0, -EPROTONOSUPPORT)
  else none

/- ## homa_recvmsg (homa_sock.c)

`struct homa_recvmsg_args` as in the uAPI.  Oracles cover the buffer
pool, the wait primitives and the user-memory copies.  The call's
side effects on external modules are recorded as an event trace. -/

structure RecvControl where
  id : Nat
  completion_cookie : Nat
  flags : Nat
  num_bpages : Nat
  bpage_offsets : List Nat
  deriving Repr, DecidableEq

/-- RPC delivered by the wait primitives, with the fields homa_recvmsg
reads. -/
structure RecvRpc where
  id : Nat
  completion_cookie : Nat
  error : Int
  /-- Value of `rpc->msgin.length` (negative when no message was initialized). -/
  msgin_length : Int
  msgin_num_bpages : Nat
  msgin_bpage_offsets : List Nat
  dport : Nat
  /-- Opaque stand-in for `rpc->peer->addr`. -/
  peer_addr : Nat
  deriving Repr, DecidableEq

/-- External calls made during homa_recvmsg, in order. -/
inductive RecvEv where
  /-- Call to `homa_pool_release_buffers(pool, n, offsets)`. -/
  | release (n : Nat) (offsets : List Nat)
  /-- Call to `homa_wait_private(rpc, nonblocking)`. -/
  | waitPrivate
  /-- Call to `homa_wait_shared(hsk, nonblocking)`. -/
  | waitShared
  deriving Repr, DecidableEq

/-- Result of `homa_wait_shared`: either an error pointer or an RPC. -/
inductive WaitSharedRes where
  | err (e : Int)
  | ok (rpc : RecvRpc)
  deriving Repr, DecidableEq

/-- Inputs and oracles of one homa_recvmsg call. -/
structure RecvCtx where
  /-- Whether `msg->msg_control == NULL`. -/
  msg_control_null : Bool
  /-- Whether `msg->msg_controllen == sizeof(struct homa_recvmsg_args)`. -/
  msg_controllen_ok : Bool
  /-- Value of `hsk->in_kernel` (in-kernel copies are memcpy and cannot fail). -/
  in_kernel : Bool
  /-- Oracle: `copy_from_user` of the control block succeeds. -/
  copy_in_ok : Bool
  /-- Caller's `homa_recvmsg_args` contents. -/
  control : RecvControl
  /-- Whether `hsk->buffer_pool != NULL`. -/
  has_pool : Bool
  /-- Oracle: result of `homa_pool_release_buffers`. -/
  release_result : Int
  /-- Oracle: the client RPC found by `homa_rpc_find_client(control.id)`
  when `control.id != 0`. -/
  find_client : Option RecvRpc
  /-- Oracle: result of `homa_wait_private`. -/
  wait_private_result : Int
  /-- Oracle: RPC or error from `homa_wait_shared`. -/
  wait_shared : WaitSharedRes
  /-- Oracle: `copy_to_user` of the control block back succeeds. -/
  copy_out_ok : Bool
  deriving Repr, DecidableEq

/-- Result of a homa_recvmsg call: the C return value, the control block
as copied back to the caller (`none` when the call returns before the
copy-back, or the copy-back itself faults), the sender (port, address)
written to `msg->msg_name`, and the trace of external calls. -/
structure RecvOutcome where
  result : Int
  control : Option RecvControl
  sender : Option (Nat × Nat)
  events : List RecvEv
  deriving Repr, DecidableEq

/-- The `done:` epilogue of homa_recvmsg: copy the control block back
(memcpy when in kernel, `copy_to_user` otherwise, turning a fault into
`EFAULT` with no control data delivered). -/
def homa_recvmsg_done (c : RecvCtx) (result : Int) (control : RecvControl)
    (sender : Option (Nat × Nat)) (events : List RecvEv) : RecvOutcome :=
  if c.in_kernel ∨ c.copy_out_ok then ⟨result, some control, sender, events⟩
  else ⟨-EFAULT, none, sender, events⟩

/-- The success tail of homa_recvmsg once a ready RPC is in hand:
result is the RPC's error or message length, the control block is filled
with id/cookie/bpages, and the sender address is stored in `msg_name`. -/
def homa_recvmsg_deliver (c : RecvCtx) (rpc : RecvRpc)
    (control : RecvControl) (events : List RecvEv) : RecvOutcome :=
  let result := if rpc.error ≠ 0 then rpc.error else rpc.msgin_length
  let control := { control with
    id := rpc.id
    completion_cookie := rpc.completion_cookie }
  let control :=
    if rpc.msgin_length ≥ 0 then
      { control with
        num_bpages := rpc.msgin_num_bpages
        bpage_offsets := rpc.msgin_bpage_offsets }
    else control
  homa_recvmsg_done c result control (some (rpc.dport, rpc.peer_addr)) events

/-- Shallow embedding of `homa_recvmsg`. -/
def homa_recvmsg (c : RecvCtx) : RecvOutcome :=
  if c.msg_control_null then ⟨-EINVAL, none, none, []⟩
  else if ¬c.msg_controllen_ok then ⟨-EINVAL, none, none, []⟩
  else if ¬c.in_kernel ∧ ¬c.copy_in_ok then ⟨-EFAULT, none, none, []⟩
  else
    let control : RecvControl := { c.control with completion_cookie := 0 }
    if control.num_bpages > HOMA_MAX_BPAGES then
      homa_recvmsg_done c (-EINVAL) control none []
    else if ¬c.has_pool then
      homa_recvmsg_done c (-EINVAL) control none []
    else
      let events := [RecvEv.release control.num_bpages control.bpage_offsets]
      let control := { control with num_bpages := 0 }
      if c.release_result ≠ 0 then
        homa_recvmsg_done c c.release_result control none events
      else if control.id ≠ 0 then
        match c.find_client with
        | none => homa_recvmsg_done c (-EINVAL) control none events
        | some rpc =>
          let events := events ++ [RecvEv.waitPrivate]
          if c.wait_private_result ≠ 0 then
            homa_recvmsg_done c c.wait_private_result
              { control with id := 0 } none events
          else homa_recvmsg_deliver c rpc control events
      else
        let events := events ++ [RecvEv.waitShared]
        match c.wait_shared with
        | .err e => homa_recvmsg_done c e control none events
        | .ok rpc => homa_recvmsg_deliver c rpc control events

/- ## Default-port allocation in homa_sock_init (homa_sock.c)

`hnet->prev_default_port` is a u16; the socket table is abstracted by
`used : Nat → Bool` (whether `homa_sock_find(hnet, p)` finds an owner).
The `while (1)` loop is embedded with explicit fuel; `spin` marks fuel
exhaustion (proved unreachable for counters in the valid range). -/

/-- One counter step of the allocation loop: increment the u16 counter,
then clamp values below `HOMA_MIN_DEFAULT_PORT` up to it. -/
def next_default_port (prev : Nat) : Nat :=
  if (prev + 1) % 65536 < HOMA_MIN_DEFAULT_PORT then HOMA_MIN_DEFAULT_PORT
  else (prev + 1) % 65536

inductive PickResult where
  | found (port : Nat)
  | addrnotavail
  | spin
  deriving Repr, DecidableEq

/-- The port-search loop of `homa_sock_init`: advance the counter; a
free port is taken; coming back around to `starting_port` with every
candidate in use fails. -/
def pick_default_port (used : Nat → Bool) (start : Nat) :
    Nat → Nat → PickResult
  | _, 0 => .spin
  | prev, fuel + 1 =>
    if used (next_default_port prev) then
      if next_default_port prev = start then .addrnotavail
      else pick_default_port used start (next_default_port prev) fuel
    else .found (next_default_port prev)

/-- Shallow embedding of the port-assignment part of `homa_sock_init`:
returns the C result, whether the socket was inserted into the socktab,
and the assigned port.  `pool_ok` is the oracle for `homa_pool_alloc`;
`none` models divergence of the unbounded loop (never reached for a
counter in the valid range). -/
def homa_sock_init (pool_ok : Bool) (used : Nat → Bool)
    (prev_default_port : Nat) : Option (Int × Bool × Nat) :=
  if ¬pool_ok then some (-ENOMEM, false, 0)
  else
    match pick_default_port used prev_default_port prev_default_port 65536 with
    | .found p => some (0, true, p)
    | .addrnotavail => some (-EADDRNOTAVAIL, false, 0)
    | .spin => none

/-- Distance (in loop iterations) from counter value `prev` until the
candidate port equals `start` again, on the cyclic candidate range
`[HOMA_MIN_DEFAULT_PORT, 65536)` of size 32768. -/
def portDist (start prev : Nat) : Nat :=
  ((start + 32767 - prev) % 32768) + 1

/- ## Helper lemmas about the port-allocation loop -/

theorem next_default_port_bounds (prev : Nat) :
    HOMA_MIN_DEFAULT_PORT ≤ next_default_port prev ∧
    next_default_port prev < 65536 := by
  unfold next_default_port HOMA_MIN_DEFAULT_PORT
  have h : (prev + 1) % 65536 < 65536 := Nat.mod_lt _ (by norm_num)
  split <;> omega

theorem next_default_port_eq (prev : Nat)
    (h1 : HOMA_MIN_DEFAULT_PORT ≤ prev) (h2 : prev < 65536) :
    next_default_port prev =
      if prev = 65535 then HOMA_MIN_DEFAULT_PORT else prev + 1 := by
  unfold next_default_port HOMA_MIN_DEFAULT_PORT at *
  by_cases hp : prev = 65535
  · subst hp; decide
  · have hlt : prev + 1 < 65536 := by omega
    rw [Nat.mod_eq_of_lt hlt]
    have hge : ¬(prev + 1 < 32768) := by omega
    simp [hge, hp]

theorem pick_found_props (used : Nat → Bool) (start : Nat) :
    ∀ fuel prev p, pick_default_port used start prev fuel = .found p →
      HOMA_MIN_DEFAULT_PORT ≤ p ∧ p < 65536 ∧ used p = false := by
  intro fuel
  induction fuel with
  | zero => intro prev p h; simp [pick_default_port] at h
  | succ n ih =>
    intro prev p h
    unfold pick_default_port at h
    by_cases hup : used (next_default_port prev) = true
    · rw [if_pos hup] at h
      by_cases hps : next_default_port prev = start
      · rw [if_pos hps] at h; exact absurd h (by simp)
      · rw [if_neg hps] at h; exact ih _ _ h
    · rw [if_neg hup] at h
      have hp : next_default_port prev = p := by
        injection h
      subst hp
      refine ⟨(next_default_port_bounds prev).1,
        (next_default_port_bounds prev).2, ?_⟩
      simpa using hup

theorem pick_all_used_fails (used : Nat → Bool) (start : Nat)
    (hu : ∀ q, HOMA_MIN_DEFAULT_PORT ≤ q → q < 65536 → used q = true)
    (hs1 : HOMA_MIN_DEFAULT_PORT ≤ start) (hs2 : start < 65536) :
    ∀ fuel prev, HOMA_MIN_DEFAULT_PORT ≤ prev → prev < 65536 →
      portDist start prev ≤ fuel →
      pick_default_port used start prev fuel = .addrnotavail := by
  unfold HOMA_MIN_DEFAULT_PORT at hs1
  intro fuel
  induction fuel with
  | zero =>
    intro prev _ _ h3
    exact absurd h3 (by unfold portDist; omega)
  | succ n ih =>
    intro prev h1 h2 h3
    rcases next_default_port_bounds prev with ⟨hb1, hb2⟩
    have hup : used (next_default_port prev) = true := hu _ hb1 hb2
    have he := next_default_port_eq prev h1 h2
    unfold HOMA_MIN_DEFAULT_PORT at he h1
    unfold pick_default_port
    rw [if_pos hup]
    by_cases hps : next_default_port prev = start
    · rw [if_pos hps]
    · rw [if_neg hps]
      refine ih _ hb1 hb2 ?_
      unfold portDist at h3 ⊢
      by_cases hp65 : prev = 65535
      · have hn : next_default_port prev = 32768 := by
          rw [he, if_pos hp65]
        rw [hn] at hps ⊢
        subst hp65
        omega
      · have hn : next_default_port prev = prev + 1 := by
          rw [he, if_neg hp65]
        rw [hn] at hps ⊢
        omega

/- ## Claim theorems -/

/-- C2 counterexample: on a shut-down socket, bind to free valid port
100 returns `-ESHUTDOWN` and does not reassign the port, contradicting
the claim's final case (which predicts success and reassignment, having
no shut-down clause). -/
theorem C2_counterexample :
    ¬((homa_sock_bind (fun _ => none) ⟨1, 40000, false, true⟩ 100).1 = 0 ∧
      (homa_sock_bind (fun _ => none) ⟨1, 40000, false, true⟩ 100).2.port
        = 100) := by
  decide

/-- C2 (amended): bind on a Homa socket: port 0 is a successful no-op;
a port at or above `HOMA_MIN_DEFAULT_PORT` yields `EINVAL`; a valid
nonzero port on a shut-down socket yields `ESHUTDOWN`; a valid port
owned by a different socket yields `EADDRINUSE` leaving the socket
unchanged; a free valid port is assigned with result 0; and a valid
port the socket already owns returns 0 with no change. -/
theorem C2_bind_port_cases (find : Nat → Option Nat) (hsk : BindSock)
    (port : Nat) :
    (port = 0 → homa_sock_bind find hsk port = (0, hsk)) ∧
    (HOMA_MIN_DEFAULT_PORT ≤ port →
      homa_sock_bind find hsk port = (-EINVAL, hsk)) ∧
    (port ≠ 0 → port < HOMA_MIN_DEFAULT_PORT → hsk.shutdown = true →
      homa_sock_bind find hsk port = (-ESHUTDOWN, hsk)) ∧
    (∀ o, port ≠ 0 → port < HOMA_MIN_DEFAULT_PORT → hsk.shutdown = false →
      find port = some o → o ≠ hsk.id →
      homa_sock_bind find hsk port = (-EADDRINUSE, hsk)) ∧
    (port ≠ 0 → port < HOMA_MIN_DEFAULT_PORT → hsk.shutdown = false →
      find port = none →
      homa_sock_bind find hsk port =
        (0, { hsk with port := port, is_server := true })) ∧
    (port ≠ 0 → port < HOMA_MIN_DEFAULT_PORT → hsk.shutdown = false →
      find port = some hsk.id →
      homa_sock_bind find hsk port = (0, hsk)) := by
  unfold homa_sock_bind
  refine ⟨?_, ?_, ?_, ?_, ?_, ?_⟩
  · intro h; rw [if_pos h]
  · intro h
    have h0 : ¬(port = 0) := by
      unfold HOMA_MIN_DEFAULT_PORT at h; omega
    rw [if_neg h0, if_pos h]
  · intro h0 h1 h2
    rw [if_neg h0, if_neg (not_le.mpr h1), if_pos h2]
  · intro o h0 h1 h2 h3 h4
    rw [if_neg h0, if_neg (not_le.mpr h1),
      if_neg (by simp [h2]), h3]
    simp only [ne_eq, h4, not_false_eq_true, if_pos]
  · intro h0 h1 h2 h3
    rw [if_neg h0, if_neg (not_le.mpr h1), if_neg (by simp [h2]), h3]
  · intro h0 h1 h2 h3
    rw [if_neg h0, if_neg (not_le.mpr h1), if_neg (by simp [h2]), h3]
    simp

/-- C2 witness: a non-shut socket binding the free port 100 succeeds
and now owns port 100. -/
theorem C2_bind_port_cases_witness :
    homa_sock_bind (fun _ => none) ⟨1, 40000, false, false⟩ 100 =
      (0, ⟨1, 100, true, false⟩) :=
  (C2_bind_port_cases (fun _ => none) ⟨1, 40000, false, false⟩
    100).2.2.2.2.1 (by decide) (by decide) rfl rfl

/-- C9: a successful bind of a fresh valid port sets `is_server`; a
bind to the port the socket already owns returns 0 without touching the
socket; and any successful bind to a nonzero port either set
`is_server` or left the socket completely unchanged. -/
theorem C9_bind_sets_is_server (find : Nat → Option Nat) (hsk : BindSock)
    (port : Nat) :
    (port ≠ 0 → port < HOMA_MIN_DEFAULT_PORT → hsk.shutdown = false →
      find port = none →
      (homa_sock_bind find hsk port).1 = 0 ∧
      (homa_sock_bind find hsk port).2.is_server = true) ∧
    (port ≠ 0 → port < HOMA_MIN_DEFAULT_PORT → hsk.shutdown = false →
      find port = some hsk.id →
      homa_sock_bind find hsk port = (0, hsk)) ∧
    (port ≠ 0 → (homa_sock_bind find hsk port).1 = 0 →
      (homa_sock_bind find hsk port).2.is_server = true ∨
      (homa_sock_bind find hsk port).2 = hsk) := by
  refine ⟨?_, ?_, ?_⟩
  · intro h0 h1 h2 h3
    rw [homa_sock_bind, if_neg h0, if_neg (not_le.mpr h1),
      if_neg (by simp [h2]), h3]
    exact ⟨rfl, rfl⟩
  · intro h0 h1 h2 h3
    rw [homa_sock_bind, if_neg h0, if_neg (not_le.mpr h1),
      if_neg (by simp [h2]), h3]
    simp
  · intro h0
    rw [homa_sock_bind, if_neg h0]
    by_cases h1 : port ≥ HOMA_MIN_DEFAULT_PORT
    · rw [if_pos h1]; intro h; simp [EINVAL] at h
    · rw [if_neg h1]
      by_cases h2 : hsk.shutdown = true
      · rw [if_pos h2]; intro h; simp [ESHUTDOWN] at h
      · rw [if_neg h2]
        cases h3 : find port with
        | none => intro _; left; rfl
        | some o =>
          dsimp only
          by_cases h4 : o ≠ hsk.id
          · rw [if_pos h4]; intro h; simp [EADDRINUSE] at h
          · rw [if_neg h4]; intro _; right; rfl

/-- C9 witness: binding free port 90 on a fresh socket succeeds and
sets the server flag. -/
theorem C9_bind_sets_is_server_witness :
    (homa_sock_bind (fun _ => none) ⟨7, 33000, false, false⟩ 90).1 = 0 ∧
    (homa_sock_bind (fun _ => none) ⟨7, 33000, false, false⟩ 90).2.is_server
      = true :=
  (C9_bind_sets_is_server (fun _ => none) ⟨7, 33000, false, false⟩
    90).1 (by decide) (by decide) rfl rfl

/-- C5: `homa_shutdown` returns 0 for every socket and every `how`;
`homa_sock_shutdown` is idempotent (a second shutdown changes nothing
and the second `homa_shutdown` also returns 0); and a first shutdown of
a live socket fully disables it: the shutdown flag is set, the socket
is unlinked from the socktab, every active RPC is dead and every
waiting interest has been woken and removed. -/
theorem C5_shutdown_idempotent (s : ShutSock) (how how2 : Int) :
    (homa_shutdown s how).1 = 0 ∧
    homa_sock_shutdown (homa_sock_shutdown s) = homa_sock_shutdown s ∧
    homa_shutdown (homa_shutdown s how).2 how2 =
      (0, (homa_shutdown s how).2) ∧
    (s.shutdown = false → s.homa_valid = true →
      (homa_sock_shutdown s).shutdown = true ∧
      (homa_sock_shutdown s).linked = false ∧
      (∀ r ∈ (homa_sock_shutdown s).active_rpcs, r = RpcState.dead) ∧
      (homa_sock_shutdown s).interests = []) := by
  have hid : homa_sock_shutdown (homa_sock_shutdown s) =
      homa_sock_shutdown s := by
    unfold homa_sock_shutdown
    by_cases h1 : s.shutdown = true
    · simp [h1]
    · by_cases h2 : s.homa_valid = true
      · simp [h1, h2]
      · simp [h1, h2]
  refine ⟨rfl, hid, ?_, ?_⟩
  · unfold homa_shutdown
    rw [hid]
  · intro h1 h2
    unfold homa_sock_shutdown
    simp [h1, h2]

/-- C5 witness: a live socket with one active RPC and one waiting
interest. -/
theorem C5_shutdown_idempotent_witness :
    (homa_shutdown ⟨false, true, true, [RpcState.outgoing], [false]⟩ 2).1
      = 0 ∧
    (homa_sock_shutdown ⟨false, true, true, [RpcState.outgoing],
        [false]⟩).shutdown = true := by
  have h := C5_shutdown_idempotent
    ⟨false, true, true, [RpcState.outgoing], [false]⟩ 2 0
  exact ⟨h.1, (h.2.2.2 rfl rfl).1⟩

/-- C10: connect on a Homa socket: an already-connected socket yields
`EISCONN` with the stored target unchanged; a shut-down socket yields
`ESHUTDOWN`; a family other than AF_INET/AF_INET6 yields `EAFNOSUPPORT`;
an address length below the family size yields `EINVAL`; otherwise the
target address is stored and the connected flag set; and on a connected
socket, user sendmsg with a non-NULL `msg_name` yields `EINVAL` (the
in-kernel connected variant rejects it as well). -/
theorem C10_connect_semantics (hsk : ConnSock) (addr : ConnAddr)
    (addrlen : Nat) :
    (hsk.connected = true → homa_connect hsk addr addrlen = (-EISCONN, hsk)) ∧
    (hsk.connected = false → hsk.shutdown = true →
      homa_connect hsk addr addrlen = (-ESHUTDOWN, hsk)) ∧
    (hsk.connected = false → hsk.shutdown = false →
      addr.family ≠ AF_INET → addr.family ≠ AF_INET6 →
      homa_connect hsk addr addrlen = (-EAFNOSUPPORT, hsk)) ∧
    (hsk.connected = false → hsk.shutdown = false →
      addr.family = AF_INET → addrlen < SIZEOF_SOCKADDR_IN →
      homa_connect hsk addr addrlen = (-EINVAL, hsk)) ∧
    (hsk.connected = false → hsk.shutdown = false →
      addr.family = AF_INET6 → addrlen < SIZEOF_SOCKADDR_IN6 →
      homa_connect hsk addr addrlen = (-EINVAL, hsk)) ∧
    (hsk.connected = false → hsk.shutdown = false →
      addr.family = AF_INET → SIZEOF_SOCKADDR_IN ≤ addrlen →
      homa_connect hsk addr addrlen =
        (0, { hsk with target_addr := some addr, connected := true })) ∧
    (hsk.connected = false → hsk.shutdown = false →
      addr.family = AF_INET6 → SIZEOF_SOCKADDR_IN6 ≤ addrlen →
      homa_connect hsk addr addrlen =
        (0, { hsk with target_addr := some addr, connected := true })) ∧
    (∀ c : SendMsgCtx, c.msg_name_null = false →
      (homa_sendmsg_user_connected c).result = -EINVAL) ∧
    (∀ u : SendmsgArgs, ∀ c : SendMsgCtx, c.msg_name_null = false →
      (homa_sendmsg_in_kernel_connected u c).result = -EINVAL) := by
  unfold homa_connect __homa_connect
  refine ⟨?_, ?_, ?_, ?_, ?_, ?_, ?_, ?_, ?_⟩
  · intro h; rw [if_pos h]
  · intro h1 h2; rw [if_neg (by simp [h1]), if_pos h2]
  · intro h1 h2 h3 h4
    rw [if_neg (by simp [h1]), if_neg (by simp [h2]), if_pos ⟨h3, h4⟩]
  · intro h1 h2 h3 h4
    rw [if_neg (by simp [h1]), if_neg (by simp [h2]),
      if_neg (by simp [h3, AF_INET]), if_pos h3, if_pos h4]
  · intro h1 h2 h3 h4
    rw [if_neg (by simp [h1]), if_neg (by simp [h2]),
      if_neg (by simp [h3, AF_INET6]),
      if_neg (by simp [h3, AF_INET, AF_INET6]), if_pos h3, if_pos h4]
  · intro h1 h2 h3 h4
    rw [if_neg (by simp [h1]), if_neg (by simp [h2]),
      if_neg (by simp [h3, AF_INET]), if_pos h3,
      if_neg (not_lt.mpr h4)]
  · intro h1 h2 h3 h4
    rw [if_neg (by simp [h1]), if_neg (by simp [h2]),
      if_neg (by simp [h3, AF_INET6]),
      if_neg (by simp [h3, AF_INET, AF_INET6]), if_pos h3,
      if_neg (not_lt.mpr h4)]
  · intro c h
    unfold homa_sendmsg_user_connected
    rw [if_pos (by simp [h])]
  · intro u c h
    unfold homa_sendmsg_in_kernel_connected
    rw [if_pos (by simp [h])]

/-- C10 witness: connecting a fresh socket to an IPv4 address succeeds
and stores the target. -/
theorem C10_connect_semantics_witness :
    homa_connect ⟨false, false, none⟩ ⟨2, 99⟩ 16 =
      (0, ⟨true, false, some ⟨2, 99⟩⟩) :=
  (C10_connect_semantics ⟨false, false, none⟩ ⟨2, 99⟩
    16).2.2.2.2.2.1 rfl rfl rfl (by decide)

/-- C4: default-port allocation in `homa_sock_init`, for a namespace
counter in the valid range: any port the loop finds is at least
`HOMA_MIN_DEFAULT_PORT` and not already owned, and the socket is
inserted with that port; and if every port of the candidate range is
owned, the full sweep terminates with `EADDRNOTAVAIL` and the socket is
not inserted. -/
theorem C4_default_port_allocation (used : Nat → Bool) (start : Nat)
    (h1 : HOMA_MIN_DEFAULT_PORT ≤ start) (h2 : start < 65536) :
    (∀ p, pick_default_port used start start 65536 = .found p →
      homa_sock_init true used start = some (0, true, p) ∧
      HOMA_MIN_DEFAULT_PORT ≤ p ∧ used p = false) ∧
    ((∀ q, HOMA_MIN_DEFAULT_PORT ≤ q → q < 65536 → used q = true) →
      homa_sock_init true used start = some (-EADDRNOTAVAIL, false, 0)) := by
  constructor
  · intro p hp
    refine ⟨?_, (pick_found_props used start 65536 start p hp).1,
      (pick_found_props used start 65536 start p hp).2.2⟩
    unfold homa_sock_init
    rw [if_neg (by simp), hp]
  · intro hu
    have hfail := pick_all_used_fails used start hu h1 h2 65536 start h1 h2
      (by unfold portDist; omega)
    unfold homa_sock_init
    rw [if_neg (by simp), hfail]

/-- C1 counterexample: a sendmsg response to an existing server RPC in
state `INCOMING` but with a recorded error (`-ETIMEDOUT`) returns that
error, not `EINVAL`, and the RPC is ended rather than left unchanged. -/
theorem C1_counterexample :
    ¬((homa_sendmsg_user_unconnected ⟨false, 16, 2, 2, true, ⟨3, 0, 0, 0⟩,
        false, true, true, ⟨1, true, 1, false⟩, none, 0, true,
        some ⟨RpcState.incoming, -ETIMEDOUT⟩⟩).result = -EINVAL ∧
      (homa_sendmsg_user_unconnected ⟨false, 16, 2, 2, true, ⟨3, 0, 0, 0⟩,
        false, true, true, ⟨1, true, 1, false⟩, none, 0, true,
        some ⟨RpcState.incoming, -ETIMEDOUT⟩⟩).server_rpc =
        some ⟨RpcState.incoming, -ETIMEDOUT⟩) := by
  decide

/-- C1 (amended): a sendmsg call with nonzero id that reaches the
response path (valid args, zero completion cookie): if no server RPC
with that id exists the call returns 0 without sending anything or
creating any RPC; if the RPC exists with no recorded error and a state
other than `IN_SERVICE` the call returns `EINVAL` and leaves the RPC
unchanged; if the RPC exists with a recorded error the call returns
that error and ends the RPC. -/
theorem C1_response_semantics (c : SendMsgCtx)
    (h1 : c.msg_name_null = false)
    (h2 : c.msg_control_is_user = true)
    (h3 : c.copy_in_ok = true)
    (h4 : sendmsg_args_invalid c.args = false)
    (h5 : c.wmem_avl = true ∨ homa_sock_wait_wmem c.wmem c.msg_dontwait = 0)
    (h6 : c.addr_family = c.sk_family)
    (h7 : ¬(c.msg_namelen < SIZEOF_SOCKADDR_IN ∨
        (c.msg_namelen < SIZEOF_SOCKADDR_IN6 ∧ c.addr_family = AF_INET6)))
    (h8 : c.args.id ≠ 0)
    (h9 : c.args.completion_cookie = 0) :
    (c.find_server = none →
      homa_sendmsg_user_unconnected c = ⟨0, none, false, false⟩) ∧
    (∀ rpc, c.find_server = some rpc → rpc.error = 0 →
      rpc.state ≠ RpcState.inService →
      homa_sendmsg_user_unconnected c = ⟨-EINVAL, some rpc, false, false⟩) ∧
    (∀ rpc, c.find_server = some rpc → rpc.error ≠ 0 →
      homa_sendmsg_user_unconnected c =
        ⟨rpc.error, some (homa_rpc_end rpc), false, false⟩) := by
  have hw : ¬(¬c.wmem_avl ∧ homa_sock_wait_wmem c.wmem c.msg_dontwait ≠ 0) := by
    rcases h5 with h5 | h5
    · simp [h5]
    · simp [h5]
  have hm : homa_sendmsg_user_unconnected c =
      (let t := homa_sendmsg_response c.args c.find_server c.fill_result
       ⟨t.1, t.2.1, false, t.2.2⟩) := by
    unfold homa_sendmsg_user_unconnected
    rw [if_neg (by simp [h1]), if_neg (by simp [h2]), if_neg (by simp [h3]),
      if_neg (by simp [h4]), if_neg hw, if_neg (by simp [h6]), if_neg h7,
      if_neg h8]
  refine ⟨?_, ?_, ?_⟩
  · intro hf
    rw [hm]
    unfold homa_sendmsg_response
    rw [if_neg (by simp [h9]), hf]
  · intro rpc hf he hs
    rw [hm]
    unfold homa_sendmsg_response
    rw [if_neg (by simp [h9]), hf]
    dsimp only
    rw [if_neg (by simp [he]), if_pos hs]
  · intro rpc hf he
    rw [hm]
    unfold homa_sendmsg_response
    rw [if_neg (by simp [h9]), hf]
    dsimp only
    rw [if_pos he]

/-- C1 witness: a response send for id 4 when no matching server RPC
exists is a silent success that neither fills a message nor allocates
an RPC. -/
theorem C1_response_semantics_witness :
    homa_sendmsg_user_unconnected ⟨false, 16, 2, 2, true, ⟨4, 0, 0, 0⟩,
      false, true, true, ⟨1, true, 1, false⟩, none, 0, true, none⟩ =
      ⟨0, none, false, false⟩ :=
  (C1_response_semantics _ rfl rfl rfl (by decide) (Or.inl rfl) rfl
    (by decide) (by decide) rfl).1 rfl

/-- C3: the in-kernel connected sendmsg variant tests
`args.flags`/`args.reserved` before the `memcpy` that fills `args` from
`msg->msg_control`, so its result depends on the uninitialized stack
contents of `args`: two calls with identical caller-visible inputs
return `-EINVAL` or success depending only on the stack garbage.  The
other variants (here the in-kernel unconnected one) accept the same
message regardless of the garbage value. -/
theorem C3_in_kernel_connected_validates_before_copy :
    (homa_sendmsg_in_kernel_connected ⟨0, 0, 2, 0⟩
      ⟨true, 0, 2, 2, false, ⟨0, 0, 0, 0⟩, false, true, true,
        ⟨1, true, 1, false⟩, none, 0, true, none⟩).result = -EINVAL ∧
    (homa_sendmsg_in_kernel_connected ⟨0, 0, 0, 0⟩
      ⟨true, 0, 2, 2, false, ⟨0, 0, 0, 0⟩, false, true, true,
        ⟨1, true, 1, false⟩, none, 0, true, none⟩).result = 0 ∧
    (homa_sendmsg_in_kernel_unconnected
      ⟨false, 16, 2, 2, false, ⟨0, 0, 0, 0⟩, false, true, true,
        ⟨1, true, 1, false⟩, none, 0, true, none⟩).result = 0 := by
  decide

/-- C6 counterexample: an IPv4 destination-unreachable with code 0
(network unreachable) is neither port-, protocol-, nor
host/address-unreachable, so per the claim nothing should be aborted;
the handler nevertheless aborts matching RPCs with `-EHOSTUNREACH`. -/
theorem C6_counterexample :
    homa_err_handler_v4 ICMP_DEST_UNREACH 0 5 ≠ none ∧
    homa_err_handler_v4 ICMP_DEST_UNREACH 0 5 = some (0, -EHOSTUNREACH) := by
  decide

/-- C6 (amended): the ICMP error mapping as the claim states it, except
that for IPv4 every destination-unreachable code other than port- or
protocol-unreachable (not only host-unreachable) aborts with
`EHOSTUNREACH`; the IPv6 handler matches the claim exactly, and any
other type/code aborts nothing. -/
theorem C6_icmp_error_mapping (t c dport : Nat) :
    (homa_err_handler_v4 ICMP_DEST_UNREACH ICMP_PORT_UNREACH dport =
      some (dport, -ENOTCONN)) ∧
    (homa_err_handler_v4 ICMP_DEST_UNREACH ICMP_PROT_UNREACH dport =
      some (0, -EPROTONOSUPPORT)) ∧
    (c ≠ ICMP_PORT_UNREACH → c ≠ ICMP_PROT_UNREACH →
      homa_err_handler_v4 ICMP_DEST_UNREACH c dport =
        some (0, -EHOSTUNREACH)) ∧
    (t ≠ ICMP_DEST_UNREACH → homa_err_handler_v4 t c dport = none) ∧
    (homa_err_handler_v6 ICMPV6_DEST_UNREACH ICMPV6_PORT_UNREACH dport =
      some (dport, -ENOTCONN)) ∧
    (homa_err_handler_v6 ICMPV6_DEST_UNREACH ICMPV6_ADDR_UNREACH dport =
      some (0, -EHOSTUNREACH)) ∧
    (homa_err_handler_v6 ICMPV6_PARAMPROB ICMPV6_UNK_NEXTHDR dport =
      some (0, -EPROTONOSUPPORT)) ∧
    (¬(t = ICMPV6_DEST_UNREACH ∧ c = ICMPV6_PORT_UNREACH) →
      ¬(t = ICMPV6_DEST_UNREACH ∧ c = ICMPV6_ADDR_UNREACH) →
      ¬(t = ICMPV6_PARAMPROB ∧ c = ICMPV6_UNK_NEXTHDR) →
      homa_err_handler_v6 t c dport = none) := by
  refine ⟨?_, ?_, ?_, ?_, ?_, ?_, ?_, ?_⟩
  · unfold homa_err_handler_v4
    rw [if_pos ⟨rfl, rfl⟩]
  · unfold homa_err_handler_v4 ICMP_PORT_UNREACH ICMP_PROT_UNREACH
    rw [if_neg (by simp), if_pos rfl, if_pos rfl]
  · intro hc1 hc2
    unfold homa_err_handler_v4
    rw [if_neg (fun hh => hc1 hh.2), if_pos rfl, if_neg hc2]
  · intro ht
    unfold homa_err_handler_v4
    rw [if_neg (fun hh => ht hh.1), if_neg ht]
  · unfold homa_err_handler_v6
    rw [if_pos ⟨rfl, rfl⟩]
  · unfold homa_err_handler_v6 ICMPV6_PORT_UNREACH ICMPV6_ADDR_UNREACH
    rw [if_neg (by simp), if_pos ⟨rfl, rfl⟩]
  · unfold homa_err_handler_v6 ICMPV6_DEST_UNREACH ICMPV6_PARAMPROB
      ICMPV6_PORT_UNREACH ICMPV6_ADDR_UNREACH ICMPV6_UNK_NEXTHDR
    rw [if_neg (by simp), if_neg (by simp), if_pos ⟨rfl, rfl⟩]
  · intro hn1 hn2 hn3
    unfold homa_err_handler_v6
    rw [if_neg hn1, if_neg hn2, if_neg hn3]

/-- C6 witness: IPv4 host-unreachable (code 1) aborts with
`EHOSTUNREACH`; an IPv6 echo-reply-style type aborts nothing. -/
theorem C6_icmp_error_mapping_witness :
    homa_err_handler_v4 ICMP_DEST_UNREACH 1 7 = some (0, -EHOSTUNREACH) ∧
    homa_err_handler_v6 2 0 7 = none :=
  ⟨(C6_icmp_error_mapping 2 1 7).2.2.1 (by decide) (by decide),
   (C6_icmp_error_mapping 2 0 7).2.2.2.2.2.2.2 (by decide) (by decide)
     (by decide)⟩

/-- C7: homa_recvmsg's buffer contract: an input `num_bpages` above
`HOMA_MAX_BPAGES` yields `EINVAL` with no buffers released and no RPC
claimed (empty event trace); whenever the call interacts with the
outside at all, its first action is releasing exactly the
caller-supplied bpages (so release precedes any waiting); and a
successful shared or private receive returns the delivered message's
id, completion cookie, bpage count and offsets (bounded by
`HOMA_MAX_BPAGES`, the uAPI array size) plus the sender address. -/
theorem C7_recvmsg_buffer_contract (c : RecvCtx)
    (hA : c.msg_control_null = false)
    (hB : c.msg_controllen_ok = true)
    (hC : c.in_kernel = true ∨ c.copy_in_ok = true)
    (hD : c.in_kernel = true ∨ c.copy_out_ok = true) :
    (HOMA_MAX_BPAGES < c.control.num_bpages →
      homa_recvmsg c = ⟨-EINVAL,
        some ⟨c.control.id, 0, c.control.flags, c.control.num_bpages,
          c.control.bpage_offsets⟩, none, []⟩) ∧
    ((homa_recvmsg c).events ≠ [] →
      (homa_recvmsg c).events.head? =
        some (RecvEv.release c.control.num_bpages c.control.bpage_offsets)) ∧
    (∀ rpc, c.control.num_bpages ≤ HOMA_MAX_BPAGES → c.has_pool = true →
      c.release_result = 0 → c.control.id = 0 → c.wait_shared = .ok rpc →
      rpc.error = 0 → 0 ≤ rpc.msgin_length →
      rpc.msgin_num_bpages ≤ HOMA_MAX_BPAGES →
      homa_recvmsg c = ⟨rpc.msgin_length,
        some ⟨rpc.id, rpc.completion_cookie, c.control.flags,
          rpc.msgin_num_bpages, rpc.msgin_bpage_offsets⟩,
        some (rpc.dport, rpc.peer_addr),
        [RecvEv.release c.control.num_bpages c.control.bpage_offsets,
          RecvEv.waitShared]⟩) ∧
    (∀ rpc, c.control.num_bpages ≤ HOMA_MAX_BPAGES → c.has_pool = true →
      c.release_result = 0 → c.control.id ≠ 0 → c.find_client = some rpc →
      c.wait_private_result = 0 → rpc.error = 0 → 0 ≤ rpc.msgin_length →
      rpc.msgin_num_bpages ≤ HOMA_MAX_BPAGES →
      homa_recvmsg c = ⟨rpc.msgin_length,
        some ⟨rpc.id, rpc.completion_cookie, c.control.flags,
          rpc.msgin_num_bpages, rpc.msgin_bpage_offsets⟩,
        some (rpc.dport, rpc.peer_addr),
        [RecvEv.release c.control.num_bpages c.control.bpage_offsets,
          RecvEv.waitPrivate]⟩) := by
  have hcc : ¬(¬c.in_kernel ∧ ¬c.copy_in_ok) := by
    rcases hC with h | h <;> simp [h]
  refine ⟨?_, ?_, ?_, ?_⟩
  · intro hgt
    unfold homa_recvmsg homa_recvmsg_done
    rw [if_neg (by simp [hA]), if_neg (by simp [hB]), if_neg hcc,
      if_pos hgt, if_pos hD]
  · intro hne
    unfold homa_recvmsg at hne ⊢
    rw [if_neg (by simp [hA]), if_neg (by simp [hB]), if_neg hcc] at hne ⊢
    by_cases hgt : HOMA_MAX_BPAGES < c.control.num_bpages
    · rw [if_pos hgt] at hne
      unfold homa_recvmsg_done at hne
      rcases hD with h | h <;> simp [h] at hne
    · rw [if_neg hgt] at hne ⊢
      by_cases hp : c.has_pool = true
      · rw [if_neg (by simp [hp])] at hne ⊢
        by_cases hr : c.release_result = 0
        · rw [if_neg (by simp [hr])] at hne ⊢
          by_cases hid : c.control.id = 0
          · rw [if_neg (by simp [hid])] at hne ⊢
            cases hws : c.wait_shared with
            | err e =>
              unfold homa_recvmsg_done
              rcases hD with h | h <;> simp [h]
            | ok rpc =>
              unfold homa_recvmsg_deliver homa_recvmsg_done
              rcases hD with h | h <;> simp [h]
          · rw [if_pos (by simpa using hid)] at hne ⊢
            cases hfc : c.find_client with
            | none =>
              unfold homa_recvmsg_done
              rcases hD with h | h <;> simp [h]
            | some rpc =>
              dsimp only
              by_cases hwp : c.wait_private_result = 0
              · rw [if_neg (by simp [hwp])]
                unfold homa_recvmsg_deliver homa_recvmsg_done
                rcases hD with h | h <;> simp [h]
              · rw [if_pos hwp]
                unfold homa_recvmsg_done
                rcases hD with h | h <;> simp [h]
        · rw [if_pos hr] at hne ⊢
          unfold homa_recvmsg_done
          rcases hD with h | h <;> simp [h]
      · rw [if_pos (by simpa using hp)] at hne
        unfold homa_recvmsg_done at hne
        rcases hD with h | h <;> simp [h] at hne
  · intro rpc hnb hp hr hid hws herr hlen _hmb
    have hgt : ¬(HOMA_MAX_BPAGES < c.control.num_bpages) := by omega
    unfold homa_recvmsg
    rw [if_neg (by simp [hA]), if_neg (by simp [hB]), if_neg hcc,
      if_neg hgt, if_neg (by simp [hp]), if_neg (by simp [hr]),
      if_neg (by simp [hid]), hws]
    rcases hD with h | h <;>
      simp [homa_recvmsg_deliver, homa_recvmsg_done, herr, hlen, h]
  · intro rpc hnb hp hr hid hfc hwp herr hlen _hmb
    have hgt : ¬(HOMA_MAX_BPAGES < c.control.num_bpages) := by omega
    unfold homa_recvmsg
    rw [if_neg (by simp [hA]), if_neg (by simp [hB]), if_neg hcc,
      if_neg hgt, if_neg (by simp [hp]), if_neg (by simp [hr]),
      if_pos (by simpa using hid), hfc]
    dsimp only
    rw [if_neg (by simp [hwp])]
    rcases hD with h | h <;>
      simp [homa_recvmsg_deliver, homa_recvmsg_done, herr, hlen, h]

/-- C7 witness: a shared receive of a 100-byte message stored in one
bpage, after returning one bpage, delivers id/cookie/offsets and the
sender, having released the caller's bpage first. -/
theorem C7_recvmsg_buffer_contract_witness :
    homa_recvmsg ⟨false, true, true, true, ⟨0, 0, 0, 1, [4096]⟩, true, 0,
      none, 0, .ok ⟨6, 77, 0, 100, 1, [8192], 9000, 42⟩, true⟩ =
      ⟨100, some ⟨6, 77, 0, 1, [8192]⟩, some (9000, 42),
        [RecvEv.release 1 [4096], RecvEv.waitShared]⟩ :=
  (C7_recvmsg_buffer_contract _ rfl rfl (Or.inl rfl) (Or.inl rfl)).2.2.1
    ⟨6, 77, 0, 100, 1, [8192], 9000, 42⟩ (by decide) rfl rfl rfl rfl rfl
    (by decide) (by decide)

/-- C8: when send memory is exhausted sendmsg waits for memory, and the
wait honors the non-blocking flag: with the flag set and memory still
unavailable the wait returns `EWOULDBLOCK` (EAGAIN) immediately, with
the flag set and memory available it returns 0, and a pending signal
yields `EINTR` no matter what; consequently a non-blocking sendmsg on
an exhausted socket returns `EWOULDBLOCK`. -/
theorem C8_wmem_nonblocking (w : WmemWait) (c : SendMsgCtx) :
    (w.signal_pending = true → ∀ nb, homa_sock_wait_wmem w nb = -EINTR) ∧
    (w.signal_pending = false → w.cond = false →
      homa_sock_wait_wmem w true = -EWOULDBLOCK) ∧
    (w.signal_pending = false → w.cond = true →
      homa_sock_wait_wmem w true = 0) ∧
    (c.msg_name_null = false → c.msg_control_is_user = true →
      c.copy_in_ok = true → sendmsg_args_invalid c.args = false →
      c.wmem_avl = false → c.msg_dontwait = true →
      c.wmem.signal_pending = false → c.wmem.cond = false →
      (homa_sendmsg_user_unconnected c).result = -EWOULDBLOCK) := by
  refine ⟨?_, ?_, ?_, ?_⟩
  · intro hs nb
    unfold homa_sock_wait_wmem
    simp [hs]
  · intro hs hc
    unfold homa_sock_wait_wmem wait_event_interruptible_timeout
    simp [hs, hc]
  · intro hs hc
    unfold homa_sock_wait_wmem wait_event_interruptible_timeout
    simp [hs, hc, EWOULDBLOCK]
  · intro h1 h2 h3 h4 h5 h6 h7 h8
    have hwres : homa_sock_wait_wmem c.wmem c.msg_dontwait = -EWOULDBLOCK := by
      rw [h6]
      unfold homa_sock_wait_wmem wait_event_interruptible_timeout
      simp [h7, h8]
    unfold homa_sendmsg_user_unconnected
    rw [if_neg (by simp [h1]), if_neg (by simp [h2]), if_neg (by simp [h3]),
      if_neg (by simp [h4]),
      if_pos ⟨by simp [h5], by rw [hwres]; decide⟩, hwres]

/-- C8 witness: a non-blocking sendmsg request on a socket with
exhausted send memory and no pending signal fails with
`EWOULDBLOCK`. -/
theorem C8_wmem_nonblocking_witness :
    (homa_sendmsg_user_unconnected ⟨false, 16, 2, 2, true, ⟨0, 0, 0, 0⟩,
      true, true, false, ⟨1, false, 1, false⟩, none, 0, true,
      none⟩).result = -EWOULDBLOCK :=
  (C8_wmem_nonblocking ⟨1, false, 1, false⟩ ⟨false, 16, 2, 2, true,
      ⟨0, 0, 0, 0⟩, true, true, false, ⟨1, false, 1, false⟩, none, 0, true,
      none⟩).2.2.2 rfl rfl rfl (by decide) rfl rfl rfl rfl

/-- C4 witness: with no port in use the first candidate after the
counter is taken; with all ports in use allocation fails. -/
theorem C4_default_port_allocation_witness :
    homa_sock_init true (fun _ => false) 32768 = some (0, true, 32769) ∧
    homa_sock_init true (fun _ => true) 32768 =
      some (-EADDRNOTAVAIL, false, 0) := by
  constructor
  · exact ((C4_default_port_allocation (fun _ => false) 32768 (by decide)
      (by decide)).1 32769 (by decide)).1
  · exact (C4_default_port_allocation (fun _ => true) 32768 (by decide)
      (by decide)).2 (fun q _ _ => rfl)

end HomaSock
